import Mathlib

/-!
Verification of the build-pipeline command of `preset-umi`
(`src/packages/preset-umi/src/commands/build.ts`).

The pipeline is embedded shallowly as a trace-producing computation:
`M ε α := List Event → List Event × Except ε α` threads the ordered list of
observable effects (hook dispatches, the bundler build call, size
measurement, filesystem writes, log lines) and short-circuits on the first
failure, mirroring the `async`/`await` control flow of the source, where a
rejected promise aborts the remaining statements.

JavaScript conventions used throughout the embedding:
  * `undefined` / `null` are both modelled as `Option.none`;
  * a JS function body with no `return` statement yields `none`, and
    `return e` yields `some e` (the closures stored in the build options
    use this to distinguish "returns undefined" from "returns a value");
  * `s || d` on strings is `if s = "" then d else s` (empty string falsy).
-/

/-- A semantic version (release part only, as used by the react-runtime
selection). Modelled from the spec: the semver collaborator is repository
code outside `src/`; §4.4 specifies the comparison as an ordinary
semantic-version `>=` against release `17.0.0` with an inclusive boundary. -/
structure Semver where
  major : Nat
  minor : Nat
  patch : Nat
deriving DecidableEq, Repr

/-- Modelled from the spec: `semver.gte` on release versions — lexicographic
comparison of (major, minor, patch). -/
def semverGte (a b : Semver) : Bool :=
  decide (b.major < a.major ∨ (a.major = b.major ∧
    (b.minor < a.minor ∨ (a.minor = b.minor ∧ b.patch ≤ a.patch))))

/-- The resolved user configuration (`api.config`), restricted to the fields
the build command reads: `vite`, `mako`, `mpa`, `esm`, `outputPath`,
`publicPath`. -/
structure UserConfig where
  vite : Bool
  mako : Bool
  mpa : Bool
  esm : Bool
  outputPath : Option String
  publicPath : String
deriving DecidableEq, Repr

/-- One script/style entry of the markup arguments; the build stage wraps
each mapped asset url `src` into an object `{ src }` (build.ts line 193/197),
embedded as the `HtmlScript.mk` constructor. -/
structure HtmlScript where
  src : String
deriving DecidableEq, Repr

/-- The markup-argument record consumed by the markup renderer: `styles`,
`scripts`, the `esmScript` flag and the request `path`.  `getMarkupArgs`
supplies a base record which the build stage updates by spread
(build.ts lines 188–201). -/
structure MarkupArgs where
  styles : List HtmlScript
  scripts : List HtmlScript
  esmScript : Bool
  path : String
deriving DecidableEq, Repr

/-- One exported HTML document: `{ path, content }` (build.ts line 176). -/
structure HtmlFile where
  path : String
  content : String
deriving DecidableEq, Repr

/-- The mutually exclusive bundler backends (spec §4.4/§9): the traditional
webpack backend, the ESM-native (vite) backend, and the alternate (mako)
backend. -/
inductive BackendKind where
  | traditional
  | esmNative
  | alternate
deriving DecidableEq, Repr

/-- Observable effects of one pipeline run, in execution order. -/
inductive Event where
  | logInfo (msg : String)
  | rimraf (path : String)
  | dispatch (key : String)
  | dispatchGen (files : Option (List String)) (isFirstTime : Bool)
  | bundlerBuild (kind : BackendKind)
  | measureSizes (path : String)
  | printFileSizes (path : String)
  | mkdirp (dir : String)
  | writeFile (path : String) (content : String)
  | logEvent (msg : String)
  | printMemoryUsage
deriving DecidableEq, Repr

/-- The effect monad of the embedding: a computation appends events to the
trace and either returns a value or fails, in which case the remaining
computation is skipped (rejected promise). The trace accumulated before the
failure is kept: effects already performed are not rolled back. -/
def M (ε α : Type) : Type := List Event → List Event × Except ε α

/-- Sequencing in `M`: on failure of the first computation the second never
runs, but the trace of the first is kept. -/
def M.bind {ε α β : Type} (x : M ε α) (f : α → M ε β) : M ε β := fun tr =>
  match x tr with
  | (tr2, Except.ok a) => f a tr2
  | (tr2, Except.error e) => (tr2, Except.error e)

/-- A pure value in `M`. -/
def M.pure {ε α : Type} (a : α) : M ε α := fun tr => (tr, Except.ok a)

/-- Emit one event. -/
def M.emit {ε : Type} (e : Event) : M ε Unit := fun tr => (tr ++ [e], Except.ok ())

/-- Modelled from the spec: the hook dispatcher of the core (outside `src/`),
MODIFY mode (§4.2): the handlers fold over the accumulator in registration
order; an empty handler list returns the initial value unchanged; a failing
handler aborts the dispatch, no later handler runs. -/
def applyModifyChain {ε α β : Type} : List (α → β → Except ε α) → α → β → Except ε α
  | [], acc, _ => Except.ok acc
  | h :: hs, acc, args =>
    match h acc args with
    | Except.ok acc2 => applyModifyChain hs acc2 args
    | Except.error e => Except.error e

/-- Modelled from the spec: the hook dispatcher, EVENT mode (§4.2): handlers
run strictly sequentially for side effects, return values discarded; a
failing handler aborts the dispatch. -/
def applyEventChain {ε β : Type} : List (β → Except ε Unit) → β → Except ε Unit
  | [], _ => Except.ok ()
  | h :: hs, args =>
    match h args with
    | Except.ok _ => applyEventChain hs args
    | Except.error e => Except.error e

/-- A MODIFY dispatch as performed by the pipeline: records the dispatch in
the trace, then folds the registered handlers. -/
def applyPluginsModify {ε α β : Type} (key : String) (hs : List (α → β → Except ε α))
    (init : α) (args : β) : M ε α :=
  fun tr => (tr ++ [Event.dispatch key], applyModifyChain hs init args)

/-- An EVENT dispatch as performed by the pipeline: records the dispatch in
the trace, then fires the registered handlers sequentially. -/
def applyPluginsEvent {ε β : Type} (key : String) (hs : List (β → Except ε Unit))
    (args : β) : M ε Unit :=
  fun tr => (tr ++ [Event.dispatch key], applyEventChain hs args)

/-- `outputPath: api.userConfig.outputPath || 'dist'` and
`opts.config.outputPath || bundlerWebpack.DEFAULT_OUTPUT_PATH`: JS `||`
with string falsiness. -/
def jsStringOr (s d : String) : String := if s = "" then d else s

/-- JS `||` on an optional string against a string default. -/
def jsOptStringOr (s : Option String) (d : String) : String :=
  match s with
  | none => d
  | some v => jsStringOr v d

/-- Modelled from the spec: the default output-path constant exposed by the
traditional backend package (outside `src/`), the spec's default output
directory `dist`. -/
def DEFAULT_OUTPUT_PATH : String := "dist"

/-- `path.join(base, p)` for a relative `p`, as used for the default entry
`join(api.paths.absTmpPath, 'umi.ts')`. -/
def joinPath (base p : String) : String := base ++ "/" ++ p

/-- Whether a path is absolute (starts with `/`). -/
def startsWithSlash (p : String) : Bool :=
  match p.data with
  | [] => false
  | c :: _ => c = '/'

/-- `path.resolve(base, p)`: an absolute `p` wins, otherwise `p` is resolved
against `base`. -/
def resolvePath (base p : String) : String :=
  if startsWithSlash p then p else base ++ "/" ++ p

/-- Split a character list on a separator character. -/
def splitOnChar (c : Char) : List Char → List (List Char)
  | [] => [[]]
  | x :: xs =>
    let r := splitOnChar c xs
    if x = c then [] :: r
    else
      match r with
      | [] => [[x]]
      | y :: ys => (x :: y) :: ys

/-- Rejoin character-list components with a separator character. -/
def intercalateChar (c : Char) : List (List Char) → List Char
  | [] => []
  | [x] => x
  | x :: xs => x ++ c :: intercalateChar c xs

/-- `path.dirname`: drop the last `/`-separated component; a bare file name
has directory `.`. -/
def dirname (s : String) : String :=
  let parts := splitOnChar '/' s.data
  if parts.length ≤ 1 then "."
  else String.mk (intercalateChar '/' parts.dropLast)

/-- The composed `opts.config` object: the literal
`{ outputPath: api.userConfig.outputPath || 'dist', ...api.config }`
(build.ts lines 109–112), with `api.config.outputPath` overriding the
default when present. -/
structure ConfigObj where
  outputPath : String
  vite : Bool
  mako : Bool
  mpa : Bool
  esm : Bool
  publicPath : String
deriving DecidableEq, Repr

/-- React-runtime selection (build.ts lines 99–104): automatic only when a
react version is detected and it is `>= 17.0.0`; a missing version is falsy,
selecting classic. -/
def shouldUseAutomaticRuntime (reactVersion : Option Semver) : Bool :=
  match reactVersion with
  | none => false
  | some v => semverGte v ⟨17, 0, 0⟩

/-- The `react: { runtime }` field of the composed options
(build.ts lines 106–108). -/
structure ReactOpts where
  runtime : String
deriving DecidableEq, Repr

/-- The entry map, initial value `{ umi: join(absTmpPath, 'umi.ts') }` of the
`modifyEntry` dispatch (build.ts lines 93–98). -/
structure EntryMap where
  umi : String
deriving DecidableEq, Repr

variable {ε V : Type}

/-- The result of `getBabelOpts` (build.ts lines 64–70): the babel preset
and the four plugin/preset lists, all opaque plugin-owned values. -/
structure BabelOpts (V : Type) where
  babelPreset : V
  beforeBabelPlugins : V
  beforeBabelPresets : V
  extraBabelPlugins : V
  extraBabelPresets : V

/-- The composed build-options object (build.ts lines 105–131).  `V` is the
opaque universe of plugin-owned JS values (babel presets, webpack/vite
configs, the package manifest, the build stats).  The three config-mutation
closures are stored as `Option`s: exactly one branch of the spread
`...(api.config.vite ? { modifyViteConfig } : { babelPreset, chainWebpack,
modifyWebpackConfig })` is present. -/
structure Opts (ε V : Type) where
  react : ReactOpts
  config : ConfigObj
  cwd : String
  entry : EntryMap
  modifyViteConfig : Option (V → V → M ε (Option V))
  babelPreset : Option V
  chainWebpack : Option (V → V → M ε (Option V))
  modifyWebpackConfig : Option (V → V → M ε (Option V))
  beforeBabelPlugins : V
  beforeBabelPresets : V
  extraBabelPlugins : V
  extraBabelPresets : V
  onBuildComplete : V → M ε Unit
  clean : Bool
  htmlFiles : List HtmlFile

/-- A resolved bundler backend: its kind and its `build` entry point
returning opaque stats. -/
structure Bundler (ε V : Type) where
  kind : BackendKind
  build : Opts ε V → Except ε V

/-- Arguments of the `onCheckPkgJSON` dispatch:
`{ origin: null, current: api.appData.pkg }` (build.ts lines 40–46). -/
structure CheckPkgArgs (V : Type) where
  origin : Option V
  current : V

/-- Argument record of `generate` and of the `onGenerateFiles` dispatch:
`files` (JS `null`/`undefined` as `none`) and `isFirstTime`
(build.ts lines 49–57). -/
structure IOnGenerateFiles where
  files : Option (List String)
  isFirstTime : Bool
deriving DecidableEq, Repr

/-- The hook registry, restricted to the keys the build command dispatches:
per key, the ordered list of registered handlers (registration order).
Handlers are fallible functions, mirroring async plugin callbacks whose
rejection aborts the dispatch. -/
structure Plugins (ε V : Type) where
  onCheckPkgJSON : List (CheckPkgArgs V → Except ε Unit)
  onGenerateFiles : List (IOnGenerateFiles → Except ε Unit)
  chainWebpack : List (V → V → Except ε V)
  modifyWebpackConfig : List (V → V → Except ε V)
  modifyViteConfig : List (V → V → Except ε V)
  modifyEntry : List (EntryMap → Unit → Except ε EntryMap)
  onBeforeCompiler : List (String × Opts ε V → Except ε Unit)
  modifyUniBundlerOpts : List (Opts ε V → String → Except ε (Opts ε V))
  modifyUniBundler : List (Bundler ε V → String × Opts ε V → Except ε (Bundler ε V))
  onBuildComplete : List (V → Except ε Unit)
  modifyExportHTMLFiles :
    List (List HtmlFile → MarkupArgs × (MarkupArgs → String) → Except ε (List HtmlFile))
  onBuildHtmlComplete : List (Opts ε V × List HtmlFile → Except ε Unit)

/-- External collaborators of the command (spec §6), all outside the core:
babel options, the selected backend's build call, the assets map, the base
markup arguments, the markup renderer (a pure function per §6), and the
size-snapshot function of the file-size reporter. -/
structure Collab (ε V : Type) where
  getBabelOpts : BabelOpts V
  bundlerBuild : Opts ε V → Except ε V
  getAssetsMap : V → String → String → List String
  getMarkupArgs : MarkupArgs
  getMarkup : MarkupArgs → String
  measureFileSizes : String → V

/-- The slice of the `api` object the command reads: version string, package
manifest, paths, cwd, the raw user config, resolved config, CLI args, and
app data (react version, bundler name). -/
structure Api (V : Type) where
  umiVersion : String
  pkg : V
  absTmpPath : String
  absOutputPath : String
  cwd : String
  userConfigOutputPath : Option String
  config : UserConfig
  argsVite : Bool
  reactVersion : Option Semver
  bundlerName : String

/-- The `chainWebpack` closure handed to the traditional backend
(build.ts lines 71–78): awaits the `chainWebpack` MODIFY dispatch and falls
off the end of the function body — it returns `undefined` (`none`),
discarding the dispatch's final accumulator. -/
def chainWebpackClosure (P : Plugins ε V) : V → V → M ε (Option V) :=
  fun memo args =>
    M.bind (applyPluginsModify "chainWebpack" P.chainWebpack memo args)
      (fun _ => M.pure none)

/-- The `modifyWebpackConfig` closure (build.ts lines 79–85): returns the
final accumulator of the `modifyWebpackConfig` MODIFY dispatch. -/
def modifyWebpackConfigClosure (P : Plugins ε V) : V → V → M ε (Option V) :=
  fun memo args =>
    M.bind (applyPluginsModify "modifyWebpackConfig" P.modifyWebpackConfig memo args)
      (fun r => M.pure (some r))

/-- The `modifyViteConfig` closure (build.ts lines 86–92): returns the final
accumulator of the `modifyViteConfig` MODIFY dispatch. -/
def modifyViteConfigClosure (P : Plugins ε V) : V → V → M ε (Option V) :=
  fun memo args =>
    M.bind (applyPluginsModify "modifyViteConfig" P.modifyViteConfig memo args)
      (fun r => M.pure (some r))

/-- The `onBuildComplete` callback stored in the options
(build.ts lines 122–128): prints memory usage, then fires the
`onBuildComplete` EVENT dispatch. -/
def onBuildCompleteClosure (P : Plugins ε V) : V → M ε Unit :=
  fun o =>
    M.bind (M.emit Event.printMemoryUsage)
      (fun _ => applyPluginsEvent "onBuildComplete" P.onBuildComplete o)

/-- The composed `opts.config` literal
`{ outputPath: api.userConfig.outputPath || 'dist', ...api.config }`
(build.ts lines 109–112): an `outputPath` present in `api.config` overrides
the default. -/
def mkConfigObj (api : Api V) : ConfigObj :=
  { outputPath :=
      match api.config.outputPath with
      | some p => p
      | none => jsOptStringOr api.userConfigOutputPath "dist"
    vite := api.config.vite
    mako := api.config.mako
    mpa := api.config.mpa
    esm := api.config.esm
    publicPath := api.config.publicPath }

/-- The build-options literal of build.ts lines 105–131. -/
def mkOpts (P : Plugins ε V) (api : Api V) (babel : BabelOpts V) (entry : EntryMap) :
    Opts ε V :=
  { react := ⟨if shouldUseAutomaticRuntime api.reactVersion then "automatic" else "classic"⟩
    config := mkConfigObj api
    cwd := api.cwd
    entry := entry
    modifyViteConfig := if api.config.vite then some (modifyViteConfigClosure P) else none
    babelPreset := if api.config.vite then none else some babel.babelPreset
    chainWebpack := if api.config.vite then none else some (chainWebpackClosure P)
    modifyWebpackConfig :=
      if api.config.vite then none else some (modifyWebpackConfigClosure P)
    beforeBabelPlugins := babel.beforeBabelPlugins
    beforeBabelPresets := babel.beforeBabelPresets
    extraBabelPlugins := babel.extraBabelPlugins
    extraBabelPresets := babel.extraBabelPresets
    onBuildComplete := onBuildCompleteClosure P
    clean := true
    htmlFiles := [] }

/-- Modelled from the spec: the Bundler Selection Gate (§4.4) resolves
exactly one backend from the mutually exclusive configuration flags; the
`vite` flag is checked first (§9), then `mako`, else the traditional
backend. -/
def resolveBackend (cfg : UserConfig) : BackendKind :=
  if cfg.vite then BackendKind.esmNative
  else if cfg.mako then BackendKind.alternate
  else BackendKind.traditional

/-- Modelled from the spec: the `modifyUniBundler` dispatch returns the
resolved backend object (§4.3, stage 3); with no handlers registered, the
default is the backend resolved by the selection gate, built by the backend
collaborator. -/
def defaultBundler (C : Collab ε V) (cfg : UserConfig) : Bundler ε V :=
  ⟨resolveBackend cfg, C.bundlerBuild⟩

/-- The `generate` helper (build.ts lines 49–57): one `onGenerateFiles`
dispatch with `files: opts.files || null` and `isFirstTime: opts.isFirstTime`.
The trace records the dispatch together with its argument payload. -/
def generate (P : Plugins ε V) (gopts : IOnGenerateFiles) : M ε Unit :=
  fun tr =>
    (tr ++ [Event.dispatchGen gopts.files gopts.isFirstTime],
     applyEventChain P.onGenerateFiles ⟨gopts.files, gopts.isFirstTime⟩)

/-- The backend build call `await bundler.build(opts)` (build.ts line 154);
the trace records which backend kind performed the build. -/
def callBundlerBuild (b : Bundler ε V) (opts : Opts ε V) : M ε V :=
  fun tr => (tr ++ [Event.bundlerBuild b.kind], b.build opts)

/-- The size-measurement stage (build.ts lines 156–171): skipped when the
`vite` or `mako` flag is set; otherwise snapshots the output directory,
then prints the file-size report. -/
def sizeStage (cfg : UserConfig) (opts : Opts ε V) : M ε Unit :=
  if !cfg.vite && !cfg.mako then
    let absOutputPath :=
      resolvePath opts.cwd (jsStringOr opts.config.outputPath DEFAULT_OUTPUT_PATH)
    M.bind (M.emit (Event.measureSizes absOutputPath)) (fun _ =>
    M.bind (M.emit (Event.logInfo "File sizes after gzip:")) (fun _ =>
    M.emit (Event.printFileSizes absOutputPath)))
  else M.pure ()

/-- The final markup arguments (build.ts lines 188–201): spread of the base
args with styles appended with the mapped css urls, scripts prepended with
the mapped js urls (both empty under the vite backend), the `esmScript`
flag, and path `/`. -/
def finalMarkUpArgs (cfgVite : Bool) (assetsMap : String → List String)
    (args : MarkupArgs) (esm viteArg : Bool) : MarkupArgs :=
  { args with
    styles :=
      args.styles ++ (if cfgVite then [] else (assetsMap "umi.css").map HtmlScript.mk)
    scripts :=
      (if cfgVite then [] else (assetsMap "umi.js").map HtmlScript.mk) ++ args.scripts
    esmScript := esm || viteArg
    path := "/" }

/-- The write loop over the exported HTML files (build.ts lines 215–221):
for each document, create its parent directory, write it under the absolute
output path, log the event. -/
def writeHtmlFiles (api : Api V) : List HtmlFile → M ε Unit
  | [] => M.pure ()
  | f :: fs =>
    M.bind (M.emit (Event.mkdirp (dirname (resolvePath api.absOutputPath f.path))))
      (fun _ =>
        M.bind (M.emit (Event.writeFile (resolvePath api.absOutputPath f.path) f.content))
          (fun _ =>
            M.bind (M.emit (Event.logEvent ("Build " ++ f.path)))
              (fun _ => writeHtmlFiles api fs)))

/-- The generate-HTML stage (build.ts lines 178–222, the body of the
`!api.config.mpa` branch): assets map (empty under vite), final markup
arguments, the `modifyExportHTMLFiles` COLLECT dispatch seeded with the one
default document, and the write loop; returns the exported documents. -/
def htmlStage (P : Plugins ε V) (C : Collab ε V) (api : Api V) (stats : V)
    (opts : Opts ε V) : M ε (List HtmlFile) :=
  let assetsMap :=
    if api.config.vite then (fun _ => []) else C.getAssetsMap stats api.config.publicPath
  let finalArgs :=
    finalMarkUpArgs api.config.vite assetsMap C.getMarkupArgs opts.config.esm api.argsVite
  M.bind
    (applyPluginsModify "modifyExportHTMLFiles" P.modifyExportHTMLFiles
      [⟨"index.html", C.getMarkup finalArgs⟩] (finalArgs, C.getMarkup))
    (fun htmlFiles =>
      M.bind (writeHtmlFiles api htmlFiles) (fun _ => M.pure htmlFiles))

/-- The tail of the pipeline after the generate stage (build.ts lines
62–231): babel options, `modifyEntry`, options composition,
`onBeforeCompiler`, `modifyUniBundlerOpts`, `modifyUniBundler`, the backend
build, the size stage, the HTML stage (skipped under `mpa`, in which case
`htmlFiles` keeps its initial `[]`), and `onBuildHtmlComplete`. -/
def afterGenerate (P : Plugins ε V) (C : Collab ε V) (api : Api V) : M ε Unit :=
  let babel := C.getBabelOpts
  M.bind
    (applyPluginsModify "modifyEntry" P.modifyEntry ⟨joinPath api.absTmpPath "umi.ts"⟩ ())
    (fun entry =>
      let opts0 := mkOpts P api babel entry
      M.bind (applyPluginsEvent "onBeforeCompiler" P.onBeforeCompiler
          (api.bundlerName, opts0))
        (fun _ =>
          M.bind (applyPluginsModify "modifyUniBundlerOpts" P.modifyUniBundlerOpts opts0
              api.bundlerName)
            (fun opts =>
              M.bind (applyPluginsModify "modifyUniBundler" P.modifyUniBundler
                  (defaultBundler C api.config) (api.bundlerName, opts))
                (fun bundler =>
                  M.bind (callBundlerBuild bundler opts)
                    (fun stats =>
                      M.bind (sizeStage api.config opts)
                        (fun _ =>
                          M.bind
                            (if api.config.mpa then M.pure []
                             else htmlStage P C api stats opts)
                            (fun htmlFiles =>
                              applyPluginsEvent "onBuildHtmlComplete"
                                P.onBuildHtmlComplete (opts, htmlFiles))))))))

/-- The whole build command body `fn` (build.ts lines 33–234): version log,
temp-directory clear, `onCheckPkgJSON`, the one `generate` call with
`isFirstTime: true` and no files, then the rest of the pipeline. -/
def buildFn (P : Plugins ε V) (C : Collab ε V) (api : Api V) : M ε Unit :=
  M.bind (M.emit (Event.logInfo ("Umi v" ++ api.umiVersion))) (fun _ =>
  M.bind (M.emit (Event.rimraf api.absTmpPath)) (fun _ =>
  M.bind (applyPluginsEvent "onCheckPkgJSON" P.onCheckPkgJSON ⟨none, api.pkg⟩) (fun _ =>
  M.bind (generate P ⟨none, true⟩) (fun _ =>
  afterGenerate P C api))))

/-- The registry with zero handlers on every hook key. -/
def emptyPlugins (ε V : Type) : Plugins ε V :=
  ⟨[], [], [], [], [], [], [], [], [], [], [], []⟩

/-- Recognizes the `onGenerateFiles` dispatch event. -/
def isGenDispatch : Event → Bool
  | Event.dispatchGen _ _ => true
  | _ => false

/-- Recognizes the backend build event. -/
def isBuildEvent : Event → Bool
  | Event.bundlerBuild _ => true
  | _ => false

/-- Recognizes the previous-size snapshot event of the file-size reporter. -/
def isMeasureEvent : Event → Bool
  | Event.measureSizes _ => true
  | _ => false

/-- Recognizes the size-report print event of the file-size reporter. -/
def isPrintSizesEvent : Event → Bool
  | Event.printFileSizes _ => true
  | _ => false

/-- Recognizes a file write. -/
def isWriteEvent : Event → Bool
  | Event.writeFile _ _ => true
  | _ => false

/-- Recognizes the dispatch of a given hook key. -/
def isDispatchKey (key : String) : Event → Bool
  | Event.dispatch k => k == key
  | _ => false

/-- A computation that never emits an `onGenerateFiles` dispatch: the
generate-files dispatches of its output trace are exactly those of its
input trace. -/
def EmitsNoGen (m : M ε α) : Prop :=
  ∀ tr, ((m tr).1).filter isGenDispatch = tr.filter isGenDispatch

/-- A concrete collaborator set used to evaluate the pipeline on closed
inputs: one mapped js asset `a.js`, one mapped css asset `a.css`, base
markup arguments with one external style `b.css` and one external script
`b.js`. -/
def sampleCollab : Collab Unit Unit :=
  { getBabelOpts := ⟨(), (), (), (), ()⟩
    bundlerBuild := fun _ => Except.ok ()
    getAssetsMap := fun _ _ n => if n = "umi.js" then ["a.js"] else ["a.css"]
    getMarkupArgs := ⟨[⟨"b.css"⟩], [⟨"b.js"⟩], false, ""⟩
    getMarkup := fun _ => "MARKUP"
    measureFileSizes := fun _ => () }

/-- A concrete api slice: no `vite`/`mako`/`mpa` flags, react `17.1.0`. -/
def sampleApi : Api Unit :=
  { umiVersion := "4.0.0"
    pkg := ()
    absTmpPath := "/tmp/.umi"
    absOutputPath := "/proj/dist"
    cwd := "/proj"
    userConfigOutputPath := none
    config := ⟨false, false, false, false, none, "/"⟩
    argsVite := false
    reactVersion := some ⟨17, 1, 0⟩
    bundlerName := "webpack" }

/-- The same api slice with the `vite` flag set. -/
def sampleViteApi : Api Unit :=
  { sampleApi with config := ⟨true, false, false, false, none, "/"⟩ }

/-- The options the pipeline composes for `sampleApi` with an empty
registry. -/
def sampleOpts : Opts Unit Unit :=
  mkOpts (emptyPlugins Unit Unit) sampleApi ⟨(), (), (), (), ()⟩
    ⟨joinPath "/tmp/.umi" "umi.ts"⟩

theorem filter_gen_append_dispatch (tr : List Event) (key : String) :
    (tr ++ [Event.dispatch key]).filter isGenDispatch = tr.filter isGenDispatch := by
  simp [List.filter_append, isGenDispatch]

theorem emitsNoGen_pure (a : α) : EmitsNoGen (M.pure (ε := ε) a) := by
  intro tr; rfl

theorem emitsNoGen_emit (e : Event) (he : isGenDispatch e = false) :
    EmitsNoGen (M.emit (ε := ε) e) := by
  intro tr; simp [M.emit, List.filter_append, he]

theorem emitsNoGen_bind {x : M ε α} {f : α → M ε β}
    (hx : EmitsNoGen x) (hf : ∀ a, EmitsNoGen (f a)) : EmitsNoGen (M.bind x f) := by
  intro tr
  have hx2 := hx tr
  unfold M.bind
  cases h : x tr with
  | mk tr2 r =>
    rw [h] at hx2
    cases r with
    | ok a =>
      have hf2 := hf a tr2
      simpa [hf2] using hx2
    | error e => simpa using hx2

theorem emitsNoGen_applyPluginsModify (key : String)
    (hs : List (α → β → Except ε α)) (init : α) (args : β) :
    EmitsNoGen (applyPluginsModify key hs init args) := by
  intro tr; simp [applyPluginsModify, List.filter_append, isGenDispatch]

theorem emitsNoGen_applyPluginsEvent (key : String)
    (hs : List (β → Except ε Unit)) (args : β) :
    EmitsNoGen (applyPluginsEvent key hs args) := by
  intro tr; simp [applyPluginsEvent, List.filter_append, isGenDispatch]

theorem emitsNoGen_callBundlerBuild (b : Bundler ε V) (opts : Opts ε V) :
    EmitsNoGen (callBundlerBuild b opts) := by
  intro tr; simp [callBundlerBuild, List.filter_append, isGenDispatch]

theorem emitsNoGen_sizeStage (cfg : UserConfig) (opts : Opts ε V) :
    EmitsNoGen (sizeStage (ε := ε) cfg opts) := by
  unfold sizeStage
  split
  · exact emitsNoGen_bind (emitsNoGen_emit _ rfl)
      (fun _ => emitsNoGen_bind (emitsNoGen_emit _ rfl) (fun _ => emitsNoGen_emit _ rfl))
  · exact emitsNoGen_pure ()

theorem emitsNoGen_writeHtmlFiles (api : Api V) (fs : List HtmlFile) :
    EmitsNoGen (writeHtmlFiles (ε := ε) api fs) := by
  induction fs with
  | nil => exact emitsNoGen_pure ()
  | cons f fs ih =>
    exact emitsNoGen_bind (emitsNoGen_emit _ rfl)
      (fun _ => emitsNoGen_bind (emitsNoGen_emit _ rfl)
        (fun _ => emitsNoGen_bind (emitsNoGen_emit _ rfl) (fun _ => ih)))

theorem emitsNoGen_htmlStage (P : Plugins ε V) (C : Collab ε V) (api : Api V)
    (stats : V) (opts : Opts ε V) : EmitsNoGen (htmlStage P C api stats opts) := by
  unfold htmlStage
  exact emitsNoGen_bind (emitsNoGen_applyPluginsModify _ _ _ _)
    (fun hf => emitsNoGen_bind (emitsNoGen_writeHtmlFiles api hf)
      (fun _ => emitsNoGen_pure hf))

theorem emitsNoGen_afterGenerate (P : Plugins ε V) (C : Collab ε V) (api : Api V) :
    EmitsNoGen (afterGenerate P C api) := by
  unfold afterGenerate
  refine emitsNoGen_bind (emitsNoGen_applyPluginsModify _ _ _ _) (fun entry => ?_)
  refine emitsNoGen_bind (emitsNoGen_applyPluginsEvent _ _ _) (fun _ => ?_)
  refine emitsNoGen_bind (emitsNoGen_applyPluginsModify _ _ _ _) (fun opts => ?_)
  refine emitsNoGen_bind (emitsNoGen_applyPluginsModify _ _ _ _) (fun bundler => ?_)
  refine emitsNoGen_bind (emitsNoGen_callBundlerBuild _ _) (fun stats => ?_)
  refine emitsNoGen_bind (emitsNoGen_sizeStage _ _) (fun _ => ?_)
  refine emitsNoGen_bind ?_ (fun hf => emitsNoGen_applyPluginsEvent _ _ _)
  split
  · exact emitsNoGen_pure []
  · exact emitsNoGen_htmlStage _ _ _ _ _

/-- C1: for every detected react version `v`, the react runtime mode placed
in the composed build options is `automatic` iff `v >= 17.0.0` (inclusive
boundary) and `classic` otherwise; with no react version present it is
`classic`; in particular `17.0.0` and `18.2.0` yield automatic and `16.14.0`
yields classic. -/
theorem C1_react_runtime_selection :
    ∀ (P : Plugins ε V) (api : Api V) (babel : BabelOpts V) (entry : EntryMap)
      (v : Semver),
      ((mkOpts P { api with reactVersion := some v } babel entry).react.runtime
          = "automatic" ↔ semverGte v ⟨17, 0, 0⟩ = true)
      ∧ (mkOpts P { api with reactVersion := none } babel entry).react.runtime
          = "classic"
      ∧ (mkOpts P { api with reactVersion := some ⟨17, 0, 0⟩ } babel entry).react.runtime
          = "automatic"
      ∧ (mkOpts P { api with reactVersion := some ⟨18, 2, 0⟩ } babel entry).react.runtime
          = "automatic"
      ∧ (mkOpts P { api with reactVersion := some ⟨16, 14, 0⟩ } babel entry).react.runtime
          = "classic" := by
  intro P api babel entry v
  refine ⟨?_, ?_, ?_, ?_, ?_⟩
  · cases hv : semverGte v ⟨17, 0, 0⟩ <;>
      simp [mkOpts, shouldUseAutomaticRuntime, hv]
  all_goals simp [mkOpts, shouldUseAutomaticRuntime, semverGte]

/-- Witness for C1 at version `17.1.0`: the composed runtime is automatic. -/
theorem C1_react_runtime_selection_witness :
    (mkOpts (emptyPlugins Unit Unit) { sampleApi with reactVersion := some ⟨17, 1, 0⟩ }
      ⟨(), (), (), (), ()⟩ ⟨"/tmp/.umi/umi.ts"⟩).react.runtime = "automatic" :=
  (C1_react_runtime_selection (emptyPlugins Unit Unit) sampleApi ⟨(), (), (), (), ()⟩
    ⟨"/tmp/.umi/umi.ts"⟩ ⟨17, 1, 0⟩).1.mpr (by decide)

/-- C5: under the non-vite backend the final scripts are the mapped js urls
prepended to the externally supplied scripts, and the final styles are the
externally supplied styles with the mapped css urls appended; concretely,
mapped `[a.js]` with external `[b.js]` gives `[a.js, b.js]`, and mapped
`[a.css]` with external `[b.css]` gives `[b.css, a.css]`. -/
theorem C5_asset_merge_order :
    ∀ (am : String → List String) (args : MarkupArgs) (esm viteArg : Bool),
      ((finalMarkUpArgs false am args esm viteArg).scripts
          = (am "umi.js").map HtmlScript.mk ++ args.scripts
        ∧ (finalMarkUpArgs false am args esm viteArg).styles
          = args.styles ++ (am "umi.css").map HtmlScript.mk)
      ∧ ((finalMarkUpArgs false (fun n => if n = "umi.js" then ["a.js"] else ["a.css"])
            ⟨[⟨"b.css"⟩], [⟨"b.js"⟩], false, ""⟩ false false).scripts
          = [⟨"a.js"⟩, ⟨"b.js"⟩]
        ∧ (finalMarkUpArgs false (fun n => if n = "umi.js" then ["a.js"] else ["a.css"])
            ⟨[⟨"b.css"⟩], [⟨"b.js"⟩], false, ""⟩ false false).styles
          = [⟨"b.css"⟩, ⟨"a.css"⟩]) := by
  intro am args esm viteArg
  refine ⟨⟨?_, ?_⟩, by decide⟩ <;> simp [finalMarkUpArgs]

/-- C6: the composed options contain `modifyViteConfig` and omit
`babelPreset`, `chainWebpack`, `modifyWebpackConfig` when the vite flag is
set, and conversely when both vite and mako are false. -/
theorem C6_exclusive_backend_options :
    ∀ (P : Plugins ε V) (api : Api V) (babel : BabelOpts V) (entry : EntryMap),
      (api.config.vite = true →
        (mkOpts P api babel entry).modifyViteConfig.isSome = true
        ∧ (mkOpts P api babel entry).babelPreset = none
        ∧ (mkOpts P api babel entry).chainWebpack = none
        ∧ (mkOpts P api babel entry).modifyWebpackConfig = none)
      ∧ (api.config.vite = false → api.config.mako = false →
        (mkOpts P api babel entry).modifyViteConfig = none
        ∧ (mkOpts P api babel entry).babelPreset = some babel.babelPreset
        ∧ (mkOpts P api babel entry).chainWebpack.isSome = true
        ∧ (mkOpts P api babel entry).modifyWebpackConfig.isSome = true) := by
  intro P api babel entry
  constructor
  · intro hv
    simp [mkOpts, hv]
  · intro hv _
    simp [mkOpts, hv]

/-- Witness for C6 with the vite flag set: `modifyViteConfig` present, the
three traditional-backend fields absent. -/
theorem C6_exclusive_backend_options_witness :
    (mkOpts (emptyPlugins Unit Unit) sampleViteApi ⟨(), (), (), (), ()⟩
        ⟨"/tmp/.umi/umi.ts"⟩).modifyViteConfig.isSome = true
    ∧ (mkOpts (emptyPlugins Unit Unit) sampleViteApi ⟨(), (), (), (), ()⟩
        ⟨"/tmp/.umi/umi.ts"⟩).babelPreset = none
    ∧ (mkOpts (emptyPlugins Unit Unit) sampleViteApi ⟨(), (), (), (), ()⟩
        ⟨"/tmp/.umi/umi.ts"⟩).chainWebpack = none
    ∧ (mkOpts (emptyPlugins Unit Unit) sampleViteApi ⟨(), (), (), (), ()⟩
        ⟨"/tmp/.umi/umi.ts"⟩).modifyWebpackConfig = none :=
  (C6_exclusive_backend_options (emptyPlugins Unit Unit) sampleViteApi
    ⟨(), (), (), (), ()⟩ ⟨"/tmp/.umi/umi.ts"⟩).1 rfl

/-- C7: the `esmScript` flag of the final markup arguments is true iff the
configuration requests ESM output or the vite CLI argument flag is set. -/
theorem C7_esmScript_iff :
    ∀ (cfgVite : Bool) (am : String → List String) (args : MarkupArgs)
      (esm viteArg : Bool),
      (finalMarkUpArgs cfgVite am args esm viteArg).esmScript = true
        ↔ (esm = true ∨ viteArg = true) := by
  intro cfgVite am args esm viteArg
  simp [finalMarkUpArgs]

/-- Witness for C7: with `esm` requested the flag is set. -/
theorem C7_esmScript_iff_witness :
    (finalMarkUpArgs false (fun _ => []) ⟨[], [], false, ""⟩ true false).esmScript
      = true :=
  (C7_esmScript_iff false (fun _ => []) ⟨[], [], false, ""⟩ true false).mpr
    (Or.inl rfl)

/-- C10: the `chainWebpack` closure awaits its MODIFY dispatch but returns
undefined (discards the final accumulator), whereas `modifyWebpackConfig`
and `modifyViteConfig` return the final accumulator of their dispatches. -/
theorem C10_closure_return_values :
    ∀ (P : Plugins ε V) (memo args a b c : V) (tr : List Event),
      applyModifyChain P.chainWebpack memo args = Except.ok a →
      applyModifyChain P.modifyWebpackConfig memo args = Except.ok b →
      applyModifyChain P.modifyViteConfig memo args = Except.ok c →
      chainWebpackClosure P memo args tr
          = (tr ++ [Event.dispatch "chainWebpack"], Except.ok none)
      ∧ modifyWebpackConfigClosure P memo args tr
          = (tr ++ [Event.dispatch "modifyWebpackConfig"], Except.ok (some b))
      ∧ modifyViteConfigClosure P memo args tr
          = (tr ++ [Event.dispatch "modifyViteConfig"], Except.ok (some c)) := by
  intro P memo args a b c tr h1 h2 h3
  refine ⟨?_, ?_, ?_⟩ <;>
    simp [chainWebpackClosure, modifyWebpackConfigClosure, modifyViteConfigClosure,
      applyPluginsModify, M.bind, M.pure, h1, h2, h3]

/-- Witness for C10 with empty handler lists. -/
theorem C10_closure_return_values_witness :
    chainWebpackClosure (emptyPlugins Unit Unit) () () []
        = ([Event.dispatch "chainWebpack"], Except.ok none)
    ∧ modifyWebpackConfigClosure (emptyPlugins Unit Unit) () () []
        = ([Event.dispatch "modifyWebpackConfig"], Except.ok (some ()))
    ∧ modifyViteConfigClosure (emptyPlugins Unit Unit) () () []
        = ([Event.dispatch "modifyViteConfig"], Except.ok (some ())) :=
  C10_closure_return_values (emptyPlugins Unit Unit) () () () () () [] rfl rfl rfl

/-- C2 (code evaluation): in the concrete run with neither the vite nor the
mako flag set, the size-measurement stage runs, yet the backend build event
strictly precedes the previous-size measurement event — the code calls
`bundler.build` (line 154) before `measureFileSizesBeforeBuild` (line 162),
contradicting the claimed (and comment-documented) before-build snapshot. -/
theorem C2_build_precedes_measure :
    ((buildFn (emptyPlugins Unit Unit) sampleCollab sampleApi []).1.filter
        isBuildEvent).length = 1
    ∧ ((buildFn (emptyPlugins Unit Unit) sampleCollab sampleApi []).1.filter
        isMeasureEvent).length = 1
    ∧ (buildFn (emptyPlugins Unit Unit) sampleCollab sampleApi []).1.findIdx
        isBuildEvent
      < (buildFn (emptyPlugins Unit Unit) sampleCollab sampleApi []).1.findIdx
        isMeasureEvent := by
  refine ⟨by decide, by decide, by decide⟩

/-- C9 counterexample: in a concrete run the unique `onGenerateFiles`
dispatch carries `files = null` (`none`), not the empty file list
`some []` the claim states. -/
theorem C9_files_argument_is_null :
    ((buildFn (emptyPlugins Unit Unit) sampleCollab sampleApi []).1).filter
        isGenDispatch = [Event.dispatchGen none true]
    ∧ ((buildFn (emptyPlugins Unit Unit) sampleCollab sampleApi []).1).filter
        isGenDispatch ≠ [Event.dispatchGen (some []) true] := by
  refine ⟨by decide, by decide⟩

/-- C9 (amended): in every pipeline run whose package-check dispatch
succeeds, the `onGenerateFiles` dispatch is issued exactly once, with
`isFirstTime = true` and with a null `files` argument (`files: null`, no
file list). -/
theorem C9_generate_dispatch_once :
    ∀ (P : Plugins ε V) (C : Collab ε V) (api : Api V),
      applyEventChain P.onCheckPkgJSON ⟨none, api.pkg⟩ = Except.ok () →
      ((buildFn P C api []).1).filter isGenDispatch
        = [Event.dispatchGen none true] := by
  intro P C api h
  simp only [buildFn, M.bind, M.emit, applyPluginsEvent, generate, h]
  cases hg : applyEventChain P.onGenerateFiles ⟨none, true⟩ with
  | ok u =>
    have hng := emitsNoGen_afterGenerate P C api
      [Event.logInfo ("Umi v" ++ api.umiVersion), Event.rimraf api.absTmpPath,
       Event.dispatch "onCheckPkgJSON", Event.dispatchGen none true]
    simpa using hng
  | error e => rfl

/-- Witness for C9 (amended) at a concrete run. -/
theorem C9_generate_dispatch_once_witness :
    ((buildFn (emptyPlugins Unit Unit) sampleCollab sampleApi []).1).filter
        isGenDispatch = [Event.dispatchGen none true] :=
  C9_generate_dispatch_once (emptyPlugins Unit Unit) sampleCollab sampleApi rfl

/-- C4: with zero handlers on `modifyExportHTMLFiles`, the COLLECT dispatch
of the generate-HTML stage yields exactly the one default document
`{path: "index.html", content: rendered final markup}`, and exactly that
document is written under the absolute output path, its parent directory
created before the write. -/
theorem C4_collect_default_document :
    ∀ (P : Plugins ε V) (C : Collab ε V) (api : Api V) (stats : V)
      (opts : Opts ε V) (tr : List Event),
      P.modifyExportHTMLFiles = [] →
      htmlStage P C api stats opts tr
        = (tr ++ [Event.dispatch "modifyExportHTMLFiles",
            Event.mkdirp (dirname (resolvePath api.absOutputPath "index.html")),
            Event.writeFile (resolvePath api.absOutputPath "index.html")
              (C.getMarkup (finalMarkUpArgs api.config.vite
                (if api.config.vite then (fun _ => [])
                 else C.getAssetsMap stats api.config.publicPath)
                C.getMarkupArgs opts.config.esm api.argsVite)),
            Event.logEvent "Build index.html"],
          Except.ok [⟨"index.html",
            C.getMarkup (finalMarkUpArgs api.config.vite
              (if api.config.vite then (fun _ => [])
               else C.getAssetsMap stats api.config.publicPath)
              C.getMarkupArgs opts.config.esm api.argsVite)⟩]) := by
  intro P C api stats opts tr hP
  simp [htmlStage, hP, applyPluginsModify, applyModifyChain, writeHtmlFiles,
    M.bind, M.pure, M.emit, List.append_assoc]

/-- Witness for C4 at concrete inputs: the single default document
`index.html` with the rendered markup is produced and written. -/
theorem C4_collect_default_document_witness :
    htmlStage (emptyPlugins Unit Unit) sampleCollab sampleApi () sampleOpts []
      = ([Event.dispatch "modifyExportHTMLFiles", Event.mkdirp "/proj/dist",
          Event.writeFile "/proj/dist/index.html" "MARKUP",
          Event.logEvent "Build index.html"],
        Except.ok [⟨"index.html", "MARKUP"⟩]) := by
  have h := C4_collect_default_document (emptyPlugins Unit Unit) sampleCollab
    sampleApi () sampleOpts [] rfl
  rw [h]
  rfl

/-- C3: with no vite/mako flags, react version `17.1.0` and zero registered
handlers on every hook key, the pipeline completes, builds with the
traditional backend, selects the automatic runtime, writes exactly one file
`index.html` under the output path, and invokes the file-size reporter
exactly once. -/
theorem C3_end_to_end :
    ∀ (C : Collab ε V) (api : Api V) (stats : V),
      api.config.vite = false → api.config.mako = false → api.config.mpa = false →
      api.reactVersion = some ⟨17, 1, 0⟩ →
      (∀ o, C.bundlerBuild o = Except.ok stats) →
      (buildFn (emptyPlugins ε V) C api []).2 = Except.ok ()
      ∧ (buildFn (emptyPlugins ε V) C api []).1.filter isBuildEvent
          = [Event.bundlerBuild BackendKind.traditional]
      ∧ (mkOpts (emptyPlugins ε V) api C.getBabelOpts
          ⟨joinPath api.absTmpPath "umi.ts"⟩).react.runtime = "automatic"
      ∧ (buildFn (emptyPlugins ε V) C api []).1.filter isWriteEvent
          = [Event.writeFile (resolvePath api.absOutputPath "index.html")
              (C.getMarkup (finalMarkUpArgs false
                (C.getAssetsMap stats api.config.publicPath)
                C.getMarkupArgs api.config.esm api.argsVite))]
      ∧ ((buildFn (emptyPlugins ε V) C api []).1.filter isPrintSizesEvent).length
          = 1 := by
  intro C api stats hv hk hm hr hb
  refine ⟨?_, ?_, ?_, ?_, ?_⟩ <;>
    simp [buildFn, afterGenerate, generate, htmlStage, sizeStage, writeHtmlFiles,
      applyPluginsEvent, applyPluginsModify, applyEventChain, applyModifyChain,
      callBundlerBuild, defaultBundler, resolveBackend, emptyPlugins, mkOpts,
      mkConfigObj, shouldUseAutomaticRuntime, semverGte, finalMarkUpArgs,
      M.bind, M.emit, M.pure, hv, hk, hm, hr, hb,
      isBuildEvent, isWriteEvent, isPrintSizesEvent]

/-- Witness for C3 at the concrete sample run. -/
theorem C3_end_to_end_witness :
    (buildFn (emptyPlugins Unit Unit) sampleCollab sampleApi []).2 = Except.ok ()
    ∧ (buildFn (emptyPlugins Unit Unit) sampleCollab sampleApi []).1.filter
        isBuildEvent = [Event.bundlerBuild BackendKind.traditional]
    ∧ (mkOpts (emptyPlugins Unit Unit) sampleApi sampleCollab.getBabelOpts
        ⟨joinPath sampleApi.absTmpPath "umi.ts"⟩).react.runtime = "automatic"
    ∧ (buildFn (emptyPlugins Unit Unit) sampleCollab sampleApi []).1.filter
        isWriteEvent
        = [Event.writeFile (resolvePath sampleApi.absOutputPath "index.html")
            (sampleCollab.getMarkup (finalMarkUpArgs false
              (sampleCollab.getAssetsMap () sampleApi.config.publicPath)
              sampleCollab.getMarkupArgs sampleApi.config.esm sampleApi.argsVite))]
    ∧ ((buildFn (emptyPlugins Unit Unit) sampleCollab sampleApi []).1.filter
        isPrintSizesEvent).length = 1 :=
  C3_end_to_end sampleCollab sampleApi () rfl rfl rfl rfl (fun _ => rfl)

/-- C8: whichever stage's hook dispatch or collaborator call fails, the
failure propagates unchanged to the caller and no later stage executes:
a failing handler injected at each of the seven dispatches the pipeline
issues (`onCheckPkgJSON`, `onGenerateFiles`, `modifyEntry`,
`onBeforeCompiler`, `modifyUniBundlerOpts`, `modifyUniBundler`,
`modifyExportHTMLFiles`, `onBuildHtmlComplete`) and a failing backend
build call each make the run end with that very error, the trace stopping
at the failing call; in particular a failing `modifyExportHTMLFiles`
dispatch writes no file and never dispatches `onBuildHtmlComplete`, while
a failure after the HTML write keeps the written file in the trace (no
rollback). -/
theorem C8_fail_fast :
    ∀ (e : ε) (C : Collab ε V) (api : Api V) (stats : V),
      (buildFn { emptyPlugins ε V with
            onCheckPkgJSON := [fun _ => Except.error e] } C api []
        = ([Event.logInfo ("Umi v" ++ api.umiVersion), Event.rimraf api.absTmpPath,
            Event.dispatch "onCheckPkgJSON"], Except.error e))
      ∧ (buildFn { emptyPlugins ε V with
            onGenerateFiles := [fun _ => Except.error e] } C api []
        = ([Event.logInfo ("Umi v" ++ api.umiVersion), Event.rimraf api.absTmpPath,
            Event.dispatch "onCheckPkgJSON", Event.dispatchGen none true],
           Except.error e))
      ∧ (buildFn { emptyPlugins ε V with
            modifyEntry := [fun _ _ => Except.error e] } C api []
        = ([Event.logInfo ("Umi v" ++ api.umiVersion), Event.rimraf api.absTmpPath,
            Event.dispatch "onCheckPkgJSON", Event.dispatchGen none true,
            Event.dispatch "modifyEntry"], Except.error e))
      ∧ (buildFn { emptyPlugins ε V with
            onBeforeCompiler := [fun _ => Except.error e] } C api []
        = ([Event.logInfo ("Umi v" ++ api.umiVersion), Event.rimraf api.absTmpPath,
            Event.dispatch "onCheckPkgJSON", Event.dispatchGen none true,
            Event.dispatch "modifyEntry", Event.dispatch "onBeforeCompiler"],
           Except.error e))
      ∧ (buildFn { emptyPlugins ε V with
            modifyUniBundlerOpts := [fun _ _ => Except.error e] } C api []
        = ([Event.logInfo ("Umi v" ++ api.umiVersion), Event.rimraf api.absTmpPath,
            Event.dispatch "onCheckPkgJSON", Event.dispatchGen none true,
            Event.dispatch "modifyEntry", Event.dispatch "onBeforeCompiler",
            Event.dispatch "modifyUniBundlerOpts"], Except.error e))
      ∧ (buildFn { emptyPlugins ε V with
            modifyUniBundler := [fun _ _ => Except.error e] } C api []
        = ([Event.logInfo ("Umi v" ++ api.umiVersion), Event.rimraf api.absTmpPath,
            Event.dispatch "onCheckPkgJSON", Event.dispatchGen none true,
            Event.dispatch "modifyEntry", Event.dispatch "onBeforeCompiler",
            Event.dispatch "modifyUniBundlerOpts", Event.dispatch "modifyUniBundler"],
           Except.error e))
      ∧ (buildFn (emptyPlugins ε V)
            { C with bundlerBuild := fun _ => Except.error e } api []
        = ([Event.logInfo ("Umi v" ++ api.umiVersion), Event.rimraf api.absTmpPath,
            Event.dispatch "onCheckPkgJSON", Event.dispatchGen none true,
            Event.dispatch "modifyEntry", Event.dispatch "onBeforeCompiler",
            Event.dispatch "modifyUniBundlerOpts", Event.dispatch "modifyUniBundler",
            Event.bundlerBuild (resolveBackend api.config)], Except.error e))
      ∧ (api.config.vite = false → api.config.mako = false → api.config.mpa = false →
          (∀ o, C.bundlerBuild o = Except.ok stats) →
          (buildFn { emptyPlugins ε V with
              modifyExportHTMLFiles := [fun _ _ => Except.error e] } C api []).2
            = Except.error e
          ∧ (buildFn { emptyPlugins ε V with
              modifyExportHTMLFiles := [fun _ _ => Except.error e] } C api []).1.filter
              isWriteEvent = []
          ∧ (buildFn { emptyPlugins ε V with
              modifyExportHTMLFiles := [fun _ _ => Except.error e] } C api []).1.filter
              (isDispatchKey "onBuildHtmlComplete") = [])
      ∧ (api.config.vite = false → api.config.mako = false → api.config.mpa = false →
          (∀ o, C.bundlerBuild o = Except.ok stats) →
          (buildFn { emptyPlugins ε V with
              onBuildHtmlComplete := [fun _ => Except.error e] } C api []).2
            = Except.error e
          ∧ (buildFn { emptyPlugins ε V with
              onBuildHtmlComplete := [fun _ => Except.error e] } C api []).1.filter
              isWriteEvent
            = [Event.writeFile (resolvePath api.absOutputPath "index.html")
                (C.getMarkup (finalMarkUpArgs false
                  (C.getAssetsMap stats api.config.publicPath)
                  C.getMarkupArgs api.config.esm api.argsVite))]) := by
  intro e C api stats
  refine ⟨?_, ?_, ?_, ?_, ?_, ?_, ?_, ?_, ?_⟩
  case _ => simp [buildFn, afterGenerate, generate, applyPluginsEvent,
    applyPluginsModify, applyEventChain, applyModifyChain, emptyPlugins,
    M.bind, M.emit, M.pure]
  case _ => simp [buildFn, afterGenerate, generate, applyPluginsEvent,
    applyPluginsModify, applyEventChain, applyModifyChain, emptyPlugins,
    M.bind, M.emit, M.pure]
  case _ => simp [buildFn, afterGenerate, generate, applyPluginsEvent,
    applyPluginsModify, applyEventChain, applyModifyChain, emptyPlugins,
    M.bind, M.emit, M.pure]
  case _ => simp [buildFn, afterGenerate, generate, applyPluginsEvent,
    applyPluginsModify, applyEventChain, applyModifyChain, emptyPlugins,
    M.bind, M.emit, M.pure]
  case _ => simp [buildFn, afterGenerate, generate, applyPluginsEvent,
    applyPluginsModify, applyEventChain, applyModifyChain, emptyPlugins,
    M.bind, M.emit, M.pure]
  case _ => simp [buildFn, afterGenerate, generate, applyPluginsEvent,
    applyPluginsModify, applyEventChain, applyModifyChain, emptyPlugins,
    M.bind, M.emit, M.pure]
  case _ => simp [buildFn, afterGenerate, generate, applyPluginsEvent,
    applyPluginsModify, applyEventChain, applyModifyChain, callBundlerBuild,
    defaultBundler, emptyPlugins, M.bind, M.emit, M.pure]
  case _ =>
    intro hv hk hm hb
    refine ⟨?_, ?_, ?_⟩ <;>
      simp [buildFn, afterGenerate, generate, htmlStage, sizeStage, writeHtmlFiles,
        applyPluginsEvent, applyPluginsModify, applyEventChain, applyModifyChain,
        callBundlerBuild, defaultBundler, resolveBackend, emptyPlugins, mkOpts,
        mkConfigObj, finalMarkUpArgs, M.bind, M.emit, M.pure, hv, hk, hm, hb,
        isWriteEvent, isDispatchKey]
  case _ =>
    intro hv hk hm hb
    refine ⟨?_, ?_⟩ <;>
      simp [buildFn, afterGenerate, generate, htmlStage, sizeStage, writeHtmlFiles,
        applyPluginsEvent, applyPluginsModify, applyEventChain, applyModifyChain,
        callBundlerBuild, defaultBundler, resolveBackend, emptyPlugins, mkOpts,
        mkConfigObj, finalMarkUpArgs, M.bind, M.emit, M.pure, hv, hk, hm, hb,
        isWriteEvent, isDispatchKey]

/-- Witness for C8 at the concrete sample run, all nine failure sites. -/
theorem C8_fail_fast_witness :
    (buildFn { emptyPlugins Unit Unit with
          onCheckPkgJSON := [fun _ => Except.error ()] } sampleCollab sampleApi []
      = ([Event.logInfo "Umi v4.0.0", Event.rimraf "/tmp/.umi",
          Event.dispatch "onCheckPkgJSON"], Except.error ()))
    ∧ (buildFn { emptyPlugins Unit Unit with
          onGenerateFiles := [fun _ => Except.error ()] } sampleCollab sampleApi []
      = ([Event.logInfo "Umi v4.0.0", Event.rimraf "/tmp/.umi",
          Event.dispatch "onCheckPkgJSON", Event.dispatchGen none true],
         Except.error ()))
    ∧ (buildFn { emptyPlugins Unit Unit with
          modifyEntry := [fun _ _ => Except.error ()] } sampleCollab sampleApi []
      = ([Event.logInfo "Umi v4.0.0", Event.rimraf "/tmp/.umi",
          Event.dispatch "onCheckPkgJSON", Event.dispatchGen none true,
          Event.dispatch "modifyEntry"], Except.error ()))
    ∧ (buildFn { emptyPlugins Unit Unit with
          onBeforeCompiler := [fun _ => Except.error ()] } sampleCollab sampleApi []
      = ([Event.logInfo "Umi v4.0.0", Event.rimraf "/tmp/.umi",
          Event.dispatch "onCheckPkgJSON", Event.dispatchGen none true,
          Event.dispatch "modifyEntry", Event.dispatch "onBeforeCompiler"],
         Except.error ()))
    ∧ (buildFn { emptyPlugins Unit Unit with
          modifyUniBundlerOpts := [fun _ _ => Except.error ()] } sampleCollab
          sampleApi []
      = ([Event.logInfo "Umi v4.0.0", Event.rimraf "/tmp/.umi",
          Event.dispatch "onCheckPkgJSON", Event.dispatchGen none true,
          Event.dispatch "modifyEntry", Event.dispatch "onBeforeCompiler",
          Event.dispatch "modifyUniBundlerOpts"], Except.error ()))
    ∧ (buildFn { emptyPlugins Unit Unit with
          modifyUniBundler := [fun _ _ => Except.error ()] } sampleCollab
          sampleApi []
      = ([Event.logInfo "Umi v4.0.0", Event.rimraf "/tmp/.umi",
          Event.dispatch "onCheckPkgJSON", Event.dispatchGen none true,
          Event.dispatch "modifyEntry", Event.dispatch "onBeforeCompiler",
          Event.dispatch "modifyUniBundlerOpts", Event.dispatch "modifyUniBundler"],
         Except.error ()))
    ∧ (buildFn (emptyPlugins Unit Unit)
          { sampleCollab with bundlerBuild := fun _ => Except.error () }
          sampleApi []
      = ([Event.logInfo "Umi v4.0.0", Event.rimraf "/tmp/.umi",
          Event.dispatch "onCheckPkgJSON", Event.dispatchGen none true,
          Event.dispatch "modifyEntry", Event.dispatch "onBeforeCompiler",
          Event.dispatch "modifyUniBundlerOpts", Event.dispatch "modifyUniBundler",
          Event.bundlerBuild BackendKind.traditional], Except.error ()))
    ∧ ((buildFn { emptyPlugins Unit Unit with
          modifyExportHTMLFiles := [fun _ _ => Except.error ()] } sampleCollab
          sampleApi []).2 = Except.error ()
      ∧ (buildFn { emptyPlugins Unit Unit with
          modifyExportHTMLFiles := [fun _ _ => Except.error ()] } sampleCollab
          sampleApi []).1.filter isWriteEvent = []
      ∧ (buildFn { emptyPlugins Unit Unit with
          modifyExportHTMLFiles := [fun _ _ => Except.error ()] } sampleCollab
          sampleApi []).1.filter (isDispatchKey "onBuildHtmlComplete") = [])
    ∧ ((buildFn { emptyPlugins Unit Unit with
          onBuildHtmlComplete := [fun _ => Except.error ()] } sampleCollab
          sampleApi []).2 = Except.error ()
      ∧ (buildFn { emptyPlugins Unit Unit with
          onBuildHtmlComplete := [fun _ => Except.error ()] } sampleCollab
          sampleApi []).1.filter isWriteEvent
        = [Event.writeFile "/proj/dist/index.html" "MARKUP"]) := by
  have h := C8_fail_fast () sampleCollab sampleApi ()
  exact ⟨h.1, h.2.1, h.2.2.1, h.2.2.2.1, h.2.2.2.2.1, h.2.2.2.2.2.1,
    h.2.2.2.2.2.2.1, h.2.2.2.2.2.2.2.1 rfl rfl rfl (fun _ => rfl),
    h.2.2.2.2.2.2.2.2 rfl rfl rfl (fun _ => rfl)⟩
